import Mathlib

/-!
Shallow embedding of the omnisearch backend (FastAPI + Azure RAG service),
covering the parts of `app/services/ai_service.py`, `app/services/chat_service.py`,
`app/api/v1/endpoints/documents.py` and `app/api/v1/endpoints/chat.py` that the
verified properties are about.  Python machine-level details are modelled as
follows: a caught `Exception` value is `PyExc`; fallible awaited calls return
`Except PyExc α`; Python string slicing and containment are modelled over
`String.data` (the list of characters); external backends (Azure AI Search,
Azure OpenAI) are modelled as explicit optional clients, `none` meaning
"not configured".
-/

namespace Omnisearch

/-- A Python exception value, as caught by a broad `except Exception` handler. -/
structure PyExc where
  msg : String
deriving DecidableEq, Repr

/-- Substring search over lists: `listContains pat l` is true when `pat` occurs
contiguously inside `l`.  Models Python's `pat in s` for strings. -/
def listContains [BEq α] (pat : List α) : List α → Bool
  | [] => pat.isEmpty
  | a :: as => pat.isPrefixOf (a :: as) || listContains pat as

/-- Python's substring test `pat in s`. -/
def strContains (s pat : String) : Bool :=
  listContains pat.data s.data

/-- Python's `str.lower()`, modelled characterwise. -/
def pyLower (s : String) : String :=
  String.mk (s.data.map Char.toLower)

/-- Python's `str.strip()`: drop whitespace from both ends. -/
def pyStrip (s : String) : String :=
  String.mk (((s.data.dropWhile Char.isWhitespace).reverse.dropWhile Char.isWhitespace).reverse)

/-- Python's `l[-n:]`: the last `n` elements (the whole list when it is shorter). -/
def lastN (n : Nat) (l : List α) : List α :=
  l.drop (l.length - n)

theorem listContains_of_IsPrefix [BEq α] [LawfulBEq α] {pat l : List α}
    (h : pat <+: l) : listContains pat l = true := by
  cases l with
  | nil =>
      have hp : pat = [] := List.prefix_nil.mp h
      simp [listContains, hp]
  | cons a as =>
      have : pat.isPrefixOf (a :: as) = true := List.isPrefixOf_iff_prefix.mpr h
      simp [listContains, this]

theorem strContains_of_prefix_data {s p : String} (h : p.data <+: s.data) :
    strContains s p = true :=
  listContains_of_IsPrefix h

/-! ## The search-index model (`AIService.search_documents`, ai_service.py lines 128–191)

Azure AI Search is modelled as an optional client holding the ranked entry
stream for the current query; the `search` call evaluates the OData filter
server-side and applies the `top` limit.  Scores and ranking are external, so
each entry carries the score the backend reports.  The OData filter string the
code builds from trusted UUID strings is modelled as its syntax tree. -/

/-- Metadata attached to an index entry / search result: either a structured
map holding an optional integer `page` field, or a JSON string whose parse is
`some page?` (an object) or `none` (a parse failure or a non-object, which the
code replaces with the empty map). -/
inductive MetaVal where
  | dict (page : Option Int)
  | jsonStr (parsed : Option (Option Int))
deriving DecidableEq, Repr

/-- The normalized `page` field of metadata after the code's
`isinstance(metadata, str)`/`json.loads` normalization. -/
def metaDictPage : MetaVal → Option Int
  | .dict p => p
  | .jsonStr parsed => parsed.getD none

/-- Python truthiness test `metadata.get("page")`: the page is used only when
present and nonzero (`0` is falsy in Python). -/
def metaPageTruthy (m : MetaVal) : Option Int :=
  match metaDictPage m with
  | some p => if p ≠ 0 then some p else none
  | none => none

/-- One record of the external search index, together with the score and
highlights the backend reports for the current query. -/
structure IndexEntry where
  id : String
  title : String
  content : String
  document_id : String
  document_name : String
  user_id : String
  score : Rat
  highlights : List String
  metadata : MetaVal
deriving DecidableEq, Repr

/-- The per-result dictionary `search_documents` builds (lines 168–177). -/
structure SearchResult where
  id : String
  title : String
  content : String
  document_id : String
  document_name : String
  score : Rat
  highlights : List String
  metadata : MetaVal
deriving DecidableEq, Repr

def toSearchResult (e : IndexEntry) : SearchResult :=
  { id := e.id
    title := e.title
    content := e.content
    document_id := e.document_id
    document_name := e.document_name
    score := e.score
    highlights := e.highlights
    metadata := e.metadata }

/-- Syntax tree of the OData filter string built in lines 137–148. -/
inductive SFilter where
  | eqUser (uid : String)
  | eqDoc (did : String)
  | or (a b : SFilter)
  | and (a b : SFilter)
deriving DecidableEq, Repr

/-- Server-side evaluation of the filter against one index entry. -/
def evalSF : SFilter → IndexEntry → Bool
  | .eqUser u, e => e.user_id == u
  | .eqDoc d, e => e.document_id == d
  | .or a b, e => evalSF a e || evalSF b e
  | .and a b, e => evalSF a e && evalSF b e

/-- `" or ".join([f"document_id eq d" for d in ids])` for a nonempty list. -/
def docIdOrChain (d : String) (ds : List String) : SFilter :=
  ds.foldl (fun acc d2 => .or acc (.eqDoc d2)) (.eqDoc d)

/-- The `filter_parts` construction of `search_documents`: always the owner-id
equality, plus the document-id disjunction when a nonempty subset was given
(`if document_ids and len(document_ids) > 0`). -/
def buildSearchFilter (user_id : String) (document_ids : Option (List String)) : SFilter :=
  match document_ids with
  | some (d :: ds) => .and (.eqUser user_id) (docIdOrChain d ds)
  | _ => .eqUser user_id

/-- The configured Azure AI Search client: the ranked, scored entry stream the
backend would return for the current query text before filtering. -/
structure SearchClient where
  index : List IndexEntry
deriving DecidableEq, Repr

/-- The `search_client.search(...)` call: the backend evaluates the filter
server-side over the ranked stream and returns at most `top` entries. -/
def SearchClient.search (c : SearchClient) (filter : SFilter) (top : Nat) : List IndexEntry :=
  (c.index.filter (fun e => evalSF filter e)).take top

/-- `AIService._fallback_search` (lines 440–444): returns an empty list
unconditionally. -/
def fallback_search : List SearchResult := []

/-- `AIService.search_documents` (lines 128–191).  `client = none` models an
unconfigured Azure AI Search; `searchRaises = true` models the broad
`except Exception` path, which degrades to `_fallback_search`. -/
def search_documents (client : Option SearchClient) (searchRaises : Bool)
    (query : String) (user_id : String) (limit : Nat)
    (document_ids : Option (List String)) : List SearchResult :=
  match client with
  | none => fallback_search
  | some c =>
      if searchRaises then fallback_search
      else (c.search (buildSearchFilter user_id document_ids) limit).map toSearchResult

theorem evalSF_buildSearchFilter_user {uid : String} {ids : Option (List String)}
    {e : IndexEntry} (h : evalSF (buildSearchFilter uid ids) e = true) :
    e.user_id = uid := by
  unfold buildSearchFilter at h
  rcases ids with _ | ⟨_ | ⟨d, ds⟩⟩ <;>
    simp only [evalSF, Bool.and_eq_true, beq_iff_eq] at h <;>
    first
    | exact h
    | exact h.1

theorem evalSF_foldl_or {e : IndexEntry} (acc : SFilter) (ds : List String) :
    evalSF (ds.foldl (fun a d2 => .or a (.eqDoc d2)) acc) e =
      (evalSF acc e || ds.any (fun x => e.document_id == x)) := by
  induction ds generalizing acc with
  | nil => simp
  | cons d2 ds ih =>
      simp only [List.foldl_cons, ih, List.any_cons, evalSF]
      rw [Bool.or_assoc]

theorem evalSF_docIdOrChain {e : IndexEntry} {d : String} {ds : List String}
    (h : evalSF (docIdOrChain d ds) e = true) : e.document_id ∈ d :: ds := by
  unfold docIdOrChain at h
  rw [evalSF_foldl_or] at h
  simp only [evalSF, Bool.or_eq_true, beq_iff_eq, List.any_eq_true] at h
  rcases h with h | ⟨x, hx, he⟩
  · simp [h]
  · right
    exact he ▸ hx

/-- C1: every retrieval result returned by `search_documents` on behalf of
owner `uid` is the image of an index entry whose owner id is `uid` — the
owner-id equality filter is always part of the query, and both degraded paths
return the empty list, so no cross-owner passage can ever appear. -/
theorem search_documents_owner_isolation
    (client : Option SearchClient) (searchRaises : Bool)
    (query uid : String) (limit : Nat) (document_ids : Option (List String))
    (r : SearchResult)
    (hr : r ∈ search_documents client searchRaises query uid limit document_ids) :
    ∃ c, client = some c ∧ ∃ e ∈ c.index, e.user_id = uid ∧ r = toSearchResult e := by
  cases client with
  | none => simp [search_documents, fallback_search] at hr
  | some c =>
      refine ⟨c, rfl, ?_⟩
      unfold search_documents at hr
      by_cases hrr : searchRaises
      · simp [hrr, fallback_search] at hr
      · simp only [hrr, if_false] at hr
        rcases List.mem_map.mp hr with ⟨e, he, hre⟩
        have he2 := List.mem_of_mem_take he
        have he3 := (List.mem_filter.mp he2)
        exact ⟨e, he3.1, evalSF_buildSearchFilter_user he3.2, hre.symm⟩

def c1_entry : IndexEntry :=
  { id := "p1"
    title := "notes"
    content := "Meeting at 3pm Tuesday"
    document_id := "d1"
    document_name := "notes.txt"
    user_id := "u1"
    score := 1
    highlights := []
    metadata := .dict none }

def c1_client : SearchClient := { index := [c1_entry] }

/-- Witness for C1 at a concrete one-entry index. -/
theorem search_documents_owner_isolation_witness :
    ∃ c, (some c1_client : Option SearchClient) = some c ∧
      ∃ e ∈ c.index, e.user_id = "u1" ∧ toSearchResult c1_entry = toSearchResult e :=
  search_documents_owner_isolation (some c1_client) false "meeting" "u1" 5 none
    (toSearchResult c1_entry) (by decide)

/-- C2: when a non-empty document-id subset is passed, every result's document
id is a member of that subset; no passage from a document outside the subset is
ever returned. -/
theorem search_documents_subset_filter
    (client : Option SearchClient) (searchRaises : Bool)
    (query uid : String) (limit : Nat) (ids : List String)
    (hids : ids ≠ [])
    (r : SearchResult)
    (hr : r ∈ search_documents client searchRaises query uid limit (some ids)) :
    r.document_id ∈ ids := by
  cases client with
  | none => simp [search_documents, fallback_search] at hr
  | some c =>
      unfold search_documents at hr
      by_cases hrr : searchRaises
      · simp [hrr, fallback_search] at hr
      · simp only [hrr, if_false] at hr
        rcases List.mem_map.mp hr with ⟨e, he, hre⟩
        have he2 := List.mem_of_mem_take he
        have he3 := (List.mem_filter.mp he2)
        rcases ids with _ | ⟨d, ds⟩
        · exact absurd rfl hids
        · have hf := he3.2
          unfold buildSearchFilter at hf
          simp only [evalSF, Bool.and_eq_true] at hf
          have hdoc := evalSF_docIdOrChain hf.2
          have : r.document_id = e.document_id := by rw [← hre]; rfl
          rw [this]
          exact hdoc

/-- Witness for C2 at a concrete index and a one-element subset. -/
theorem search_documents_subset_filter_witness :
    ("d1" : String) ∈ ["d1"] ∧ (toSearchResult c1_entry).document_id ∈ ["d1"] :=
  ⟨by decide,
    search_documents_subset_filter (some c1_client) false "meeting" "u1" 5 ["d1"]
      (by decide) (toSearchResult c1_entry) (by decide)⟩

/-! ## Context building and the rule-based fallback answer
(`AIService._build_context_from_search` lines 262–285,
`AIService._generate_fallback_openai_response` lines 446–458,
`AIService._generate_openai_response` lines 193–260) -/

/-- A `{"role": ..., "content": ...}` message dictionary. -/
structure RoleContent where
  role : String
  content : String
deriving DecidableEq, Repr

/-- The empty-retrieval marker emitted when a document subset was selected
(line 266). -/
def selectedEmptyMarker (n : Nat) : String :=
  "No relevant content found in the selected " ++ toString n ++
    " document(s). The selected documents may not contain information related to the query."

/-- The empty-retrieval marker emitted when no subset was given (line 267). -/
def noDocumentsMarker : String :=
  "No relevant documents found in your document library."

/-- One block of the non-empty context (lines 270–283). -/
def context_part (r : SearchResult) : String :=
  let base := "Document: " ++ r.document_name ++ "\n" ++ "Content: " ++ r.content ++ "\n"
  match metaPageTruthy r.metadata with
  | some p => base ++ "Source: Page " ++ toString p ++ "\n"
  | none => base

/-- `AIService._build_context_from_search` (lines 262–285). -/
def build_context_from_search (search_results : List SearchResult)
    (document_ids : Option (List String)) : String :=
  match search_results with
  | [] =>
      match document_ids with
      | some ids => if 0 < ids.length then selectedEmptyMarker ids.length else noDocumentsMarker
      | none => noDocumentsMarker
  | _ :: _ => String.intercalate "\n---\n" (search_results.map context_part)

/-- The greeting branch of the fallback (lines 448–449). -/
def greetingTemplate : String :=
  "Hello! I'm your AI assistant. I can help you find information in your uploaded documents and answer questions based on them. Please upload some documents first, then ask me questions about their content."

/-- The "nothing found in the selected documents" fallback answer (line 454). -/
def selectedDocsTemplate (user_message : String) : String :=
  "I searched through the selected document(s) but couldn't find information related to your question about '" ++
    user_message ++
    "'. The selected documents may not contain the information you're looking for. You might want to try selecting different documents or ask a different question."

/-- The "no documents in library" fallback answer (line 456). -/
def noLibraryTemplate (user_message : String) : String :=
  "I couldn't find relevant information in your documents about '" ++
    user_message ++
    "'. Based on the available context, I can help you with questions about company policies, procedures, and other document content. Could you provide more specific details about what you're looking for, or try selecting different documents?"

/-- The generic "found some context" fallback answer (line 458). -/
def foundContextTemplate (user_message : String) : String :=
  "Based on the information in your selected documents, I found some context about '" ++
    user_message ++
    "'. However, I may not have all the details. Please review the document sources provided below for more complete information."

/-- The greeting test `"hello" in user_message.lower() or "hi" in user_message.lower()`. -/
def isGreetingMessage (user_message : String) : Bool :=
  strContains (pyLower user_message) "hello" || strContains (pyLower user_message) "hi"

/-- `AIService._generate_fallback_openai_response` (lines 446–458). -/
def generate_fallback_openai_response (user_message context : String) : String :=
  if isGreetingMessage user_message then greetingTemplate
  else if strContains context "No relevant content found in the selected" then
    selectedDocsTemplate user_message
  else if strContains context "No relevant documents found" then
    noLibraryTemplate user_message
  else foundContextTemplate user_message

/-- The `document_context_note` string (lines 209–211). -/
def document_context_note (document_ids : Option (List String)) : String :=
  match document_ids with
  | some (d :: ds) =>
      "\nIMPORTANT: The user has specifically selected " ++ toString (d :: ds).length ++
        " document(s) to search. You MUST answer based ONLY on information from these selected documents. Do NOT ask which document the user is referring to - they have already selected specific documents."
  | _ => ""

/-- The system prompt assembled at lines 213–228 (inner indentation of the
Python f-string elided). -/
def rag_system_prompt (context : String) (document_ids : Option (List String)) : String :=
  "You are an AI assistant for an enterprise document management system. \nUse the following context from the user's documents to answer their question accurately and helpfully.\n" ++
    document_context_note document_ids ++
    "\n\nContext from documents:\n" ++ context ++
    "\n\nInstructions:\n- Answer based ONLY on the provided context from the selected documents\n- If documents were selected by the user, you already know which documents to use - do NOT ask the user to specify which document\n- If the context indicates no relevant information was found in the selected documents, clearly state: \"I couldn't find information about your question in the selected document(s).\"\n- Be concise and professional\n- Always cite the specific document name when referencing information (the document name is provided in the context)\n- If the context shows document names, use those names in your response\n- Never ask \"which document are you referring to\" if documents have been selected\n"

/-- The message list sent to the completion backend (lines 230–241): the system
prompt, the last 10 messages of the conversation, then the user message. -/
def openai_messages (system_prompt : String) (conversation : List RoleContent)
    (user_message : String) : List RoleContent :=
  ({ role := "system", content := system_prompt } :: lastN 10 conversation) ++
    [{ role := "user", content := user_message }]

/-- The configured Azure OpenAI completion backend: a call that either returns
the completion text or raises. -/
structure OpenAIClient where
  complete : List RoleContent → Except PyExc String

/-- `AIService._generate_openai_response` (lines 193–260): unconfigured backend
and a raising call both degrade to the rule-based fallback. -/
def generate_openai_response (client : Option OpenAIClient) (user_message context : String)
    (conversation : List RoleContent) (document_ids : Option (List String)) : String :=
  match client with
  | none => generate_fallback_openai_response user_message context
  | some c =>
      match c.complete (openai_messages (rag_system_prompt context document_ids)
          conversation user_message) with
      | .error _ => generate_fallback_openai_response user_message context
      | .ok s => s

theorem string_eq_of_data {a b : String} (h : a.data = b.data) : a = b := by
  cases a
  cases b
  exact congrArg String.mk h

theorem ne_of_data_take_ne {s t : String} (n : Nat)
    (h : s.data.take n ≠ t.data.take n) : s ≠ t := by
  intro he
  exact h (he ▸ rfl)

theorem data_take_append3 (p m s : String) (k : Nat) (hk : k ≤ p.data.length) :
    (p ++ m ++ s).data.take k = p.data.take k := by
  have hd : (p ++ m ++ s).data = p.data ++ (m.data ++ s.data) := by
    rw [String.data_append, String.data_append, List.append_assoc]
  rw [hd, List.take_append_of_le_length hk]

theorem append3_ne_empty {p : String} (m s : String) (hp : p.data ≠ []) :
    p ++ m ++ s ≠ "" := by
  intro h
  have hd := congrArg String.data h
  rw [String.data_append, String.data_append] at hd
  rcases List.append_eq_nil.mp hd with ⟨h1, _⟩
  rcases List.append_eq_nil.mp h1 with ⟨h2, _⟩
  exact hp h2

theorem selectedEmptyMarker_contains_pattern (n : Nat) :
    strContains (selectedEmptyMarker n) "No relevant content found in the selected" = true := by
  apply strContains_of_prefix_data
  unfold selectedEmptyMarker
  rw [String.data_append, String.data_append, List.append_assoc]
  exact List.IsPrefix.trans (by decide) (List.prefix_append ..)

theorem selectedEmptyMarker_ne_noDocumentsMarker (n : Nat) :
    selectedEmptyMarker n ≠ noDocumentsMarker := by
  apply ne_of_data_take_ne 13
  unfold selectedEmptyMarker noDocumentsMarker
  rw [data_take_append3 _ _ _ 13 (by decide)]
  decide

theorem selectedDocsTemplate_ne_noLibraryTemplate (m : String) :
    selectedDocsTemplate m ≠ noLibraryTemplate m := by
  apply ne_of_data_take_ne 4
  unfold selectedDocsTemplate noLibraryTemplate
  rw [data_take_append3 _ _ _ 4 (by decide), data_take_append3 _ _ _ 4 (by decide)]
  decide

/-- C4: whenever the completion backend is unconfigured or its call raises,
`_generate_openai_response` returns exactly the deterministic rule-based
fallback answer, which is always one of the four templates (greeting, the two
empty-state templates, or the generic found-some-context template) and is
never the empty string — no raw failure ever reaches the user for this step. -/
theorem generate_openai_response_fallback_total
    (client : Option OpenAIClient) (user_message context : String)
    (conversation : List RoleContent) (document_ids : Option (List String))
    (h : client = none ∨ ∃ c e, client = some c ∧
        c.complete (openai_messages (rag_system_prompt context document_ids)
          conversation user_message) = .error e) :
    generate_openai_response client user_message context conversation document_ids
        = generate_fallback_openai_response user_message context
    ∧ (generate_fallback_openai_response user_message context = greetingTemplate
       ∨ generate_fallback_openai_response user_message context = selectedDocsTemplate user_message
       ∨ generate_fallback_openai_response user_message context = noLibraryTemplate user_message
       ∨ generate_fallback_openai_response user_message context = foundContextTemplate user_message)
    ∧ generate_fallback_openai_response user_message context ≠ "" := by
  refine ⟨?_, ?_, ?_⟩
  · rcases h with h | ⟨c, e, hc, hcall⟩
    · subst h
      rfl
    · subst hc
      have hu : generate_openai_response (some c) user_message context conversation document_ids
          = match c.complete (openai_messages (rag_system_prompt context document_ids)
              conversation user_message) with
            | .error _ => generate_fallback_openai_response user_message context
            | .ok s => s := rfl
      rw [hu, hcall]
  · unfold generate_fallback_openai_response
    split
    · exact Or.inl rfl
    · split
      · exact Or.inr (Or.inl rfl)
      · split
        · exact Or.inr (Or.inr (Or.inl rfl))
        · exact Or.inr (Or.inr (Or.inr rfl))
  · unfold generate_fallback_openai_response
    split
    · decide
    · split
      · exact append3_ne_empty _ _ (by decide)
      · split
        · exact append3_ne_empty _ _ (by decide)
        · exact append3_ne_empty _ _ (by decide)

/-- Witness for C4: unconfigured backend, concrete message and context. -/
theorem generate_openai_response_fallback_total_witness :
    generate_openai_response none "hello there" "ctx" [] none
        = generate_fallback_openai_response "hello there" "ctx"
    ∧ (generate_fallback_openai_response "hello there" "ctx" = greetingTemplate
       ∨ generate_fallback_openai_response "hello there" "ctx" = selectedDocsTemplate "hello there"
       ∨ generate_fallback_openai_response "hello there" "ctx" = noLibraryTemplate "hello there"
       ∨ generate_fallback_openai_response "hello there" "ctx" = foundContextTemplate "hello there")
    ∧ generate_fallback_openai_response "hello there" "ctx" ≠ "" :=
  generate_openai_response_fallback_total none "hello there" "ctx" [] none (Or.inl rfl)

/-- C5: with zero retrieved passages, a non-empty subset yields the
"nothing found in the selected documents" marker and no subset yields the
"no documents in library" marker; the two markers differ in wording and, for a
non-greeting message, drive the two distinct empty-state fallback answers. -/
theorem empty_context_states_distinct (ids : List String) (hids : ids ≠ [])
    (msg : String) (hmsg : isGreetingMessage msg = false) :
    build_context_from_search [] (some ids) = selectedEmptyMarker ids.length
    ∧ build_context_from_search [] none = noDocumentsMarker
    ∧ build_context_from_search [] (some ids) ≠ build_context_from_search [] none
    ∧ generate_fallback_openai_response msg (build_context_from_search [] (some ids))
        = selectedDocsTemplate msg
    ∧ generate_fallback_openai_response msg (build_context_from_search [] none)
        = noLibraryTemplate msg
    ∧ selectedDocsTemplate msg ≠ noLibraryTemplate msg := by
  have hlen : 0 < ids.length := List.length_pos.mpr hids
  have h1 : build_context_from_search [] (some ids) = selectedEmptyMarker ids.length := by
    unfold build_context_from_search
    simp [hlen]
  have h2 : build_context_from_search [] none = noDocumentsMarker := rfl
  refine ⟨h1, h2, ?_, ?_, ?_, selectedDocsTemplate_ne_noLibraryTemplate msg⟩
  · rw [h1, h2]
    exact selectedEmptyMarker_ne_noDocumentsMarker _
  · rw [h1]
    unfold generate_fallback_openai_response
    rw [hmsg, selectedEmptyMarker_contains_pattern]
    rfl
  · rw [h2]
    unfold generate_fallback_openai_response
    rw [hmsg]
    have hc1 : strContains noDocumentsMarker "No relevant content found in the selected" = false := by
      decide
    have hc2 : strContains noDocumentsMarker "No relevant documents found" = true := by
      decide
    rw [hc1, hc2]
    rfl

/-- Witness for C5: one selected document, a non-greeting message. -/
theorem empty_context_states_distinct_witness :
    build_context_from_search [] (some ["d1"]) = selectedEmptyMarker (["d1"] : List String).length
    ∧ build_context_from_search [] none = noDocumentsMarker
    ∧ build_context_from_search [] (some ["d1"]) ≠ build_context_from_search [] none
    ∧ generate_fallback_openai_response "When does our contract expire?"
        (build_context_from_search [] (some ["d1"]))
        = selectedDocsTemplate "When does our contract expire?"
    ∧ generate_fallback_openai_response "When does our contract expire?"
        (build_context_from_search [] none)
        = noLibraryTemplate "When does our contract expire?"
    ∧ selectedDocsTemplate "When does our contract expire?"
        ≠ noLibraryTemplate "When does our contract expire?" :=
  empty_context_states_distinct ["d1"] (by decide)
    "When does our contract expire?" (by decide)

/-! ## Source extraction (`AIService._extract_sources_from_search`, lines 302–327) -/

/-- One Source citation dictionary attached to an assistant message. -/
structure Source where
  document_id : String
  document_name : String
  relevance_score : Rat
  snippet : String
  page_number : Option Int
deriving DecidableEq, Repr

/-- `AIService._extract_sources_from_search` (lines 302–327): one Source per
result; the snippet is the first 200 characters with `"..."` appended when the
content is longer than 200 characters; the page number is kept only when the
metadata `page` field is present and truthy. -/
def extract_sources_from_search (search_results : List SearchResult) : List Source :=
  search_results.map fun r =>
    { document_id := r.document_id
      document_name := r.document_name
      relevance_score := r.score
      snippet := if r.content.length > 200 then r.content.take 200 ++ "..." else r.content
      page_number := metaPageTruthy r.metadata }

theorem snippet_take200 (content : String) :
    (if content.length > 200 then content.take 200 ++ "..." else content).take 200
      = content.take 200 := by
  split
  · next h =>
      apply string_eq_of_data
      rw [String.data_take, String.data_append, String.data_take]
      have hlen : 200 ≤ (List.take 200 content.data).length := by
        rw [List.length_take]
        have : 200 ≤ content.data.length := le_of_lt h
        omega
      rw [List.take_append_of_le_length hlen, List.take_take]
      norm_num
  · rfl

def long_content : String := String.mk (List.replicate 201 'a')

def c7_result : SearchResult :=
  { id := "p2"
    title := "t2"
    content := long_content
    document_id := "d2"
    document_name := "doc2.pdf"
    score := 1
    highlights := []
    metadata := .dict (some 3) }

set_option maxRecDepth 8192 in
/-- Counterexample for C7: for a passage whose content has 201 characters the
produced snippet is the first 200 characters with an appended ellipsis, not the
first 200 characters themselves, so the claim as stated fails. -/
theorem extract_sources_snippet_cex :
    (extract_sources_from_search [c7_result]).map Source.snippet
      ≠ [c7_result.content.take 200] := by
  decide

/-- C7 (amended): source extraction produces exactly one Source per passage;
the relevance score and document fields are copied verbatim; the snippet is the
content itself when it has at most 200 characters and otherwise the first 200
characters followed by an ellipsis (in particular its first 200 characters
always agree with the content's); the page number is copied from the passage
metadata exactly when it is present and truthy (nonzero). -/
theorem extract_sources_spec (search_results : List SearchResult) :
    (extract_sources_from_search search_results).length = search_results.length
    ∧ ∀ (i : Nat) (h1 : i < search_results.length)
        (h2 : i < (extract_sources_from_search search_results).length),
        ((extract_sources_from_search search_results).get ⟨i, h2⟩).relevance_score
            = (search_results.get ⟨i, h1⟩).score
        ∧ ((extract_sources_from_search search_results).get ⟨i, h2⟩).document_id
            = (search_results.get ⟨i, h1⟩).document_id
        ∧ ((extract_sources_from_search search_results).get ⟨i, h2⟩).document_name
            = (search_results.get ⟨i, h1⟩).document_name
        ∧ ((extract_sources_from_search search_results).get ⟨i, h2⟩).snippet
            = (if (search_results.get ⟨i, h1⟩).content.length > 200
               then (search_results.get ⟨i, h1⟩).content.take 200 ++ "..."
               else (search_results.get ⟨i, h1⟩).content)
        ∧ ((extract_sources_from_search search_results).get ⟨i, h2⟩).snippet.take 200
            = (search_results.get ⟨i, h1⟩).content.take 200
        ∧ ((extract_sources_from_search search_results).get ⟨i, h2⟩).page_number
            = metaPageTruthy (search_results.get ⟨i, h1⟩).metadata := by
  constructor
  · exact List.length_map ..
  · intro i h1 h2
    have hget : (extract_sources_from_search search_results).get ⟨i, h2⟩
        = { document_id := (search_results.get ⟨i, h1⟩).document_id
            document_name := (search_results.get ⟨i, h1⟩).document_name
            relevance_score := (search_results.get ⟨i, h1⟩).score
            snippet := if (search_results.get ⟨i, h1⟩).content.length > 200
              then (search_results.get ⟨i, h1⟩).content.take 200 ++ "..."
              else (search_results.get ⟨i, h1⟩).content
            page_number := metaPageTruthy (search_results.get ⟨i, h1⟩).metadata } := by
      unfold extract_sources_from_search
      rw [List.get_eq_getElem, List.get_eq_getElem, List.getElem_map]
    rw [hget]
    exact ⟨rfl, rfl, rfl, rfl, snippet_take200 _, rfl⟩

/-- Witness for C7's amended theorem at a concrete one-passage list. -/
theorem extract_sources_spec_witness :
    ((extract_sources_from_search [c7_result]).get ⟨0, by decide⟩).relevance_score
      = (([c7_result] : List SearchResult).get ⟨0, by decide⟩).score :=
  (((extract_sources_spec [c7_result]).2 0 (by decide) (by decide))).1

/-! ## The relational store model (`chat_service.py`, `models/chat.py`)

`ChatSession` and `ChatMessage` rows, with UUIDs modelled as `Nat` and
`func.now()` modelled by a monotonic store clock.  `updated_at` carries the
schema's `onupdate=func.now()`: every SQL UPDATE of a session row refreshes it. -/

structure SessionRow where
  id : Nat
  user_id : Nat
  title : String
  created_at : Nat
  updated_at : Nat
deriving DecidableEq, Repr

structure MsgRow where
  session_id : Nat
  role : String
  content : String
  sources : List Source
  created_at : Nat
deriving DecidableEq, Repr

structure Store where
  sessions : List SessionRow
  messages : List MsgRow
  clock : Nat
deriving DecidableEq, Repr

/-- The WHERE clause `ChatSession.id == session_id [and ChatSession.user_id == user_id]`;
the user filter is added only when a user id is passed. -/
def sessMatch (session_id : Nat) (user_id : Option Nat) (r : SessionRow) : Bool :=
  r.id == session_id &&
    match user_id with
    | some u => r.user_id == u
    | none => true

/-- `ChatService.get_session_by_id` (lines 50–63): `scalar_one_or_none`, with
the multiple-rows exception swallowed into `None` by the broad handler. -/
def get_session_by_id (s : Store) (session_id : Nat) (user_id : Option Nat) : Option SessionRow :=
  match s.sessions.filter (sessMatch session_id user_id) with
  | [row] => some row
  | _ => none

/-- Stable insertion of a message into a created_at-ascending list (a new
element goes after all elements with an equal or smaller timestamp). -/
def insertByCreatedAt (m : MsgRow) : List MsgRow → List MsgRow
  | [] => [m]
  | x :: xs => if m.created_at < x.created_at then m :: x :: xs else x :: insertByCreatedAt m xs

/-- `ORDER BY created_at ASC` as a stable sort over the insertion-ordered rows. -/
def sortByCreatedAtAsc (l : List MsgRow) : List MsgRow :=
  l.foldl (fun acc m => insertByCreatedAt m acc) []

/-- `ChatService.get_session_messages` (lines 197–224): an unknown or
not-owned session returns `[]`; otherwise the session's messages ordered by
`created_at` ascending with SQL `LIMIT limit OFFSET offset`. -/
def get_session_messages (s : Store) (session_id limit offset : Nat)
    (user_id : Option Nat) : List MsgRow :=
  match get_session_by_id s session_id user_id with
  | none => []
  | some _ =>
      ((sortByCreatedAtAsc (s.messages.filter (fun m => m.session_id == session_id))).drop
        offset).take limit

/-- `ChatService._update_session_timestamp` (lines 283–295): bump
`updated_at` of the session row (no user filter in the UPDATE). -/
def update_session_timestamp (s : Store) (session_id : Nat) : Store :=
  { s with
    sessions := s.sessions.map (fun r =>
      if r.id == session_id then { r with updated_at := s.clock } else r)
    clock := s.clock + 1 }

/-- `ChatService.add_message` (lines 160–195): verify session ownership,
append the message, then refresh the session timestamp. -/
def add_message (s : Store) (session_id : Nat) (user_id : Option Nat)
    (role content : String) (sources : List Source) : Store × Option MsgRow :=
  match get_session_by_id s session_id user_id with
  | none => (s, none)
  | some _ =>
      let m : MsgRow :=
        { session_id := session_id, role := role, content := content,
          sources := sources, created_at := s.clock }
      let s1 : Store := { s with messages := s.messages ++ [m], clock := s.clock + 1 }
      (update_session_timestamp s1 session_id, some m)

/-- The title derivation of `ChatService._update_session_title` (lines 300–303):
`first_message[:50].strip()`, with `"..."` appended when the message is longer
than 50 characters. -/
def derive_title (first_message : String) : String :=
  let title := pyStrip (first_message.take 50)
  if first_message.length > 50 then title ++ "..." else title

/-- `ChatService._update_session_title` (lines 297–315): UPDATE of the title
(no user filter); the schema's `onupdate` refreshes `updated_at`. -/
def update_session_title (s : Store) (session_id : Nat) (first_message : String) : Store :=
  { s with
    sessions := s.sessions.map (fun r =>
      if r.id == session_id then
        { r with title := derive_title first_message, updated_at := s.clock }
      else r)
    clock := s.clock + 1 }

/-- `ChatService.update_session` (lines 88–122), for a title-only
`ChatSessionUpdate`: `none` means no field set, which just re-reads the row. -/
def update_session (s : Store) (session_id : Nat) (new_title : Option String)
    (user_id : Option Nat) : Store × Option SessionRow :=
  match new_title with
  | none => (s, get_session_by_id s session_id user_id)
  | some t =>
      let s1 : Store :=
        { s with
          sessions := s.sessions.map (fun r =>
            if sessMatch session_id user_id r then
              { r with title := t, updated_at := s.clock }
            else r)
          clock := s.clock + 1 }
      (s1, get_session_by_id s1 session_id user_id)

/-- HTTP outcome of the clear endpoint. -/
inductive ClearResult where
  | noContent
  | httpError (code : Nat) (detail : String)
deriving DecidableEq, Repr

/-- `clear_session_messages` endpoint (chat.py lines 353–384): verify the
session, then — messages are deliberately NOT deleted — update the session
title to "New Chat". -/
def clear_session_messages (s : Store) (session_id uid : Nat) : Store × ClearResult :=
  match get_session_by_id s session_id (some uid) with
  | none => (s, .httpError 404 "Chat session not found")
  | some _ => ((update_session s session_id (some "New Chat") (some uid)).1, .noContent)

/-- `AIService._build_conversation_history` (lines 287–300):
`chat_history[-10:]` when longer than 10 messages. -/
def build_conversation_history (chat_history : List MsgRow) : List RoleContent :=
  let recent := if chat_history.length > 10 then lastN 10 chat_history else chat_history
  recent.map (fun m => { role := m.role, content := m.content })

/-- `ChatService.process_chat_message` (lines 226–281), with the AI backend's
reply abstracted as an optional `(content, sources)` pair: persist the user
message, fetch history with limit 20, persist the assistant message, and
update the title when the fetched history has at most 2 messages. -/
def process_chat_message (ai_response : Option (String × List Source)) (s : Store)
    (user_id session_id : Nat) (user_message : String)
    (document_ids : Option (List Nat)) : Store × Option MsgRow :=
  match add_message s session_id (some user_id) "user" user_message [] with
  | (s1, none) => (s1, none)
  | (s1, some _) =>
      let messages := get_session_messages s1 session_id 20 0 (some user_id)
      match ai_response with
      | none => (s1, none)
      | some (content, sources) =>
          let res2 := add_message s1 session_id (some user_id) "assistant" content sources
          ((if messages.length ≤ 2 then update_session_title res2.1 session_id user_message
            else res2.1), res2.2)

/-- The history portion handed to the language model for one chat turn: the
code path `get_session_messages(limit=20)` → `_build_conversation_history`
(last 10) → `conversation[-10:]` inside `_generate_openai_response`. -/
def model_history_for_turn (s : Store) (session_id uid : Nat) : List RoleContent :=
  lastN 10 (build_conversation_history (get_session_messages s session_id 20 0 (some uid)))

/-- The spec's reading "the most recent 20 messages": the last `n` messages of
the session in ascending creation order (stated for comparison with the code's
behaviour). -/
def most_recent_messages (s : Store) (session_id n : Nat) : List MsgRow :=
  lastN n (sortByCreatedAtAsc (s.messages.filter (fun m => m.session_id == session_id)))

theorem lastN_all {l : List α} {n : Nat} (h : l.length ≤ n) : lastN n l = l := by
  unfold lastN
  rw [Nat.sub_eq_zero_of_le h, List.drop_zero]

theorem length_lastN (n : Nat) (l : List α) :
    (lastN n l).length = l.length - (l.length - n) := by
  unfold lastN
  rw [List.length_drop]

theorem lastN_map (f : α → β) (n : Nat) (l : List α) :
    lastN n (l.map f) = (lastN n l).map f := by
  unfold lastN
  rw [List.length_map, List.map_drop]

theorem lastN10_build_conversation (l : List MsgRow) :
    lastN 10 (build_conversation_history l)
      = (lastN 10 l).map (fun m => ({ role := m.role, content := m.content } : RoleContent)) := by
  unfold build_conversation_history
  by_cases h : l.length > 10
  · rw [if_pos h]
    apply lastN_all
    rw [List.length_map, length_lastN]
    omega
  · rw [if_neg h, lastN_map]

/-- C6 (amended): for an owned session, the history handed to the language
model for a chat turn is the last 10 of the FIRST 20 messages of the session
in ascending creation order (the query orders ascending and applies
`LIMIT 20`, so with more than 20 messages the oldest 20 — not the most
recent 20 — are retrieved). -/
theorem model_history_spec (s : Store) (sid uid : Nat) (row : SessionRow)
    (h : get_session_by_id s sid (some uid) = some row) :
    model_history_for_turn s sid uid
      = (lastN 10 ((sortByCreatedAtAsc
            (s.messages.filter (fun m => m.session_id == sid))).take 20)).map
          (fun m => ({ role := m.role, content := m.content } : RoleContent)) := by
  unfold model_history_for_turn
  have hg : get_session_messages s sid 20 0 (some uid)
      = (sortByCreatedAtAsc (s.messages.filter (fun m => m.session_id == sid))).take 20 := by
    unfold get_session_messages
    rw [h, List.drop_zero]
  rw [hg, lastN10_build_conversation]

def c6_session : SessionRow :=
  { id := 1, user_id := 7, title := "New Chat", created_at := 0, updated_at := 0 }

/-- A session with 21 messages, timestamps 0..20. -/
def c6_store : Store :=
  { sessions := [c6_session]
    messages := (List.range 21).map (fun i =>
      { session_id := 1, role := "user", content := "", sources := [], created_at := i })
    clock := 21 }

/-- Counterexample for C6: with 21 messages in the session, the history query
(`order_by created_at ASC`, `limit 20`) does not return the most recent 20
messages — the newest message (created_at 20) is in the session but absent
from the retrieved history. -/
theorem get_session_messages_not_most_recent_cex :
    get_session_messages c6_store 1 20 0 (some 7) ≠ most_recent_messages c6_store 1 20
    ∧ ({ session_id := 1, role := "user", content := "", sources := [],
          created_at := 20 } : MsgRow) ∈ c6_store.messages
    ∧ ({ session_id := 1, role := "user", content := "", sources := [],
          created_at := 20 } : MsgRow) ∉ get_session_messages c6_store 1 20 0 (some 7) := by
  decide

/-- Witness for C6's amended theorem at the concrete 21-message store. -/
theorem model_history_spec_witness :
    model_history_for_turn c6_store 1 7
      = (lastN 10 ((sortByCreatedAtAsc
            (c6_store.messages.filter (fun m => m.session_id == 1))).take 20)).map
          (fun m => ({ role := m.role, content := m.content } : RoleContent)) :=
  model_history_spec c6_store 1 7 c6_session (by decide)

/-- C9: `get_session_messages` returns `[]` for a session id that does not
exist or is not owned by the requesting user — indistinguishable at this
interface from an owned session that has no messages, which also yields `[]`. -/
theorem get_session_messages_not_found_empty (s s2 : Store)
    (sid sid2 uid uid2 limit offset limit2 offset2 : Nat)
    (h : get_session_by_id s sid (some uid) = none)
    (h2 : ∃ row, get_session_by_id s2 sid2 (some uid2) = some row)
    (h3 : s2.messages.filter (fun m => m.session_id == sid2) = []) :
    get_session_messages s sid limit offset (some uid) = []
    ∧ get_session_messages s sid limit offset (some uid)
        = get_session_messages s2 sid2 limit2 offset2 (some uid2) := by
  have ha : get_session_messages s sid limit offset (some uid) = [] := by
    unfold get_session_messages
    rw [h]
  rcases h2 with ⟨row, h2⟩
  have hb : get_session_messages s2 sid2 limit2 offset2 (some uid2) = [] := by
    unfold get_session_messages
    rw [h2, h3]
    simp [sortByCreatedAtAsc]
  exact ⟨ha, ha.trans hb.symm⟩

def c9_store_empty : Store :=
  { sessions := [], messages := [], clock := 0 }

def c9_store_owned : Store :=
  { sessions := [{ id := 2, user_id := 7, title := "New Chat", created_at := 0, updated_at := 0 }]
    messages := []
    clock := 1 }

/-- Witness for C9: a store without the session vs. an owned empty session. -/
theorem get_session_messages_not_found_empty_witness :
    get_session_messages c9_store_empty 1 100 0 (some 7) = []
    ∧ get_session_messages c9_store_empty 1 100 0 (some 7)
        = get_session_messages c9_store_owned 2 100 0 (some 7) :=
  get_session_messages_not_found_empty c9_store_empty c9_store_owned 1 2 7 7 100 0 100 0
    (by decide)
    ⟨{ id := 2, user_id := 7, title := "New Chat", created_at := 0, updated_at := 0 },
      by decide⟩
    (by decide)

theorem add_message_some {s : Store} {sid : Nat} {uid : Option Nat} {row : SessionRow}
    (h : get_session_by_id s sid uid = some row) (role content : String)
    (sources : List Source) :
    add_message s sid uid role content sources
      = (update_session_timestamp
          { s with
            messages := s.messages ++
              [{ session_id := sid, role := role, content := content,
                 sources := sources, created_at := s.clock }]
            clock := s.clock + 1 } sid,
         some { session_id := sid, role := role, content := content,
                sources := sources, created_at := s.clock }) := by
  unfold add_message
  rw [h]

theorem update_session_title_title (s : Store) (sid : Nat) (msg : String) :
    ∀ r ∈ (update_session_title s sid msg).sessions, r.id = sid →
      r.title = derive_title msg := by
  intro r hr hrid
  unfold update_session_title at hr
  simp only [List.mem_map] at hr
  rcases hr with ⟨r0, _, hr0⟩
  by_cases h0 : r0.id == sid
  · rw [← hr0]
    simp [h0]
  · rw [← hr0] at hrid
    simp only [h0, if_false] at hrid
    exact absurd hrid (by simpa using h0)

/-- C8: on a first-exchange chat turn (the fetched history holds at most 2
messages), the session title is set to the stripped first 50 characters of the
user message, with `"..."` appended exactly when the message is longer than 50
characters. -/
theorem process_chat_message_title (s : Store) (uid sid : Nat) (row : SessionRow)
    (msg content : String) (sources : List Source) (ids : Option (List Nat))
    (h : get_session_by_id s sid (some uid) = some row)
    (hlen : (get_session_messages (add_message s sid (some uid) "user" msg []).1
        sid 20 0 (some uid)).length ≤ 2) :
    (∀ r ∈ ((process_chat_message (some (content, sources)) s uid sid msg ids).1).sessions,
        r.id = sid → r.title = derive_title msg)
    ∧ derive_title msg
        = (if msg.length > 50 then pyStrip (msg.take 50) ++ "..."
           else pyStrip (msg.take 50)) := by
  constructor
  · have ha := add_message_some h "user" msg []
    rw [ha] at hlen
    unfold process_chat_message
    rw [ha]
    dsimp only
    rw [if_pos hlen]
    exact update_session_title_title _ sid msg
  · rfl

def c8_store : Store :=
  { sessions := [{ id := 3, user_id := 7, title := "New Chat", created_at := 0, updated_at := 0 }]
    messages := []
    clock := 1 }

/-- Witness for C8 at a concrete first exchange. -/
theorem process_chat_message_title_witness :
    (∀ r ∈ ((process_chat_message (some ("ok", [])) c8_store 7 3
        "What is the leave policy?" none).1).sessions,
        r.id = 3 → r.title = derive_title "What is the leave policy?")
    ∧ derive_title "What is the leave policy?"
        = (if ("What is the leave policy?" : String).length > 50
           then pyStrip (("What is the leave policy?" : String).take 50) ++ "..."
           else pyStrip (("What is the leave policy?" : String).take 50)) :=
  process_chat_message_title c8_store 7 3
    { id := 3, user_id := 7, title := "New Chat", created_at := 0, updated_at := 0 }
    "What is the leave policy?" "ok" [] none (by decide) (by decide)

def c10_store : Store :=
  { sessions := [{ id := 1, user_id := 7, title := "Quarterly report questions",
                   created_at := 0, updated_at := 5 }]
    messages := [{ session_id := 1, role := "user", content := "hello",
                   sources := [], created_at := 2 }]
    clock := 9 }

/-- Counterexample for C10: clearing leaves the messages untouched, but the
resulting session list is NOT the input list with only the title replaced —
the UPDATE also refreshes the session's `updated_at` (schema `onupdate`), so
the title reset is not the operation's only state change. -/
theorem clear_session_messages_cex :
    ((clear_session_messages c10_store 1 7).1).messages = c10_store.messages
    ∧ ((clear_session_messages c10_store 1 7).1).sessions
        ≠ c10_store.sessions.map (fun r =>
            if r.id == 1 then { r with title := "New Chat" } else r) := by
  decide

/-- C10 (amended): on an existing owned session, the clear operation leaves
the session's messages completely unchanged and returns 204; its only state
change is on the session row itself: the title is reset to "New Chat" and
`updated_at` is refreshed; other sessions are untouched. -/
theorem clear_session_messages_spec (s : Store) (sid uid : Nat) (row : SessionRow)
    (h : get_session_by_id s sid (some uid) = some row) :
    ((clear_session_messages s sid uid).1).messages = s.messages
    ∧ (clear_session_messages s sid uid).2 = .noContent
    ∧ ((clear_session_messages s sid uid).1).sessions
        = s.sessions.map (fun r =>
            if sessMatch sid (some uid) r then
              { r with title := "New Chat", updated_at := s.clock }
            else r) := by
  unfold clear_session_messages
  rw [h]
  exact ⟨rfl, rfl, rfl⟩

/-- Witness for C10's amended theorem at the concrete store. -/
theorem clear_session_messages_spec_witness :
    ((clear_session_messages c10_store 1 7).1).messages = c10_store.messages
    ∧ (clear_session_messages c10_store 1 7).2 = .noContent
    ∧ ((clear_session_messages c10_store 1 7).1).sessions
        = c10_store.sessions.map (fun r =>
            if sessMatch 1 (some 7) r then
              { r with title := "New Chat", updated_at := c10_store.clock }
            else r) :=
  clear_session_messages_spec c10_store 1 7
    { id := 1, user_id := 7, title := "Quarterly report questions",
      created_at := 0, updated_at := 5 }
    (by decide)

/-! ## The document processing pipeline
(`_process_document_async` and the enclosing endpoints, documents.py lines
45–118 and 263–359).

The awaited service calls inside the `try` block each either return a value
(the services catch their own exceptions) or raise — the raising paths exist,
e.g. a failing `rollback()` inside a service's own handler escapes it, and are
what the enclosing `except Exception` block is for.  `update_status` is
modelled as applying the status (its own handler swallows its failures). -/

/-- The document row fields the pipeline touches. -/
structure DocRecord where
  status : String
  content : Option String
deriving DecidableEq, Repr

/-- Outcomes of the awaited calls inside `_process_document_async`'s `try`
block, in program order. -/
structure PipelineCalls where
  extract_text : Except PyExc (Option String)
  update_ready : Except PyExc Bool
  create_embeddings : Except PyExc (Option (List Rat))
  get_by_id : Except PyExc (Option Unit)
  index_in_search : Except PyExc Bool

/-- `document_service.update_status(document_id, "error")`. -/
def update_status_error (d : DocRecord) : DocRecord :=
  { d with status := "error" }

/-- `_process_document_async` (documents.py lines 317–359).  Returns the
document row after the run and the exception the function re-raises
(`raise e` in its handler), if any. -/
def process_document_async (c : PipelineCalls) (d : DocRecord) : DocRecord × Option PyExc :=
  match c.extract_text with
  | .error e => (update_status_error d, some e)
  | .ok none => (update_status_error d, none)
  | .ok (some text) =>
      match c.update_ready with
      | .error e => (update_status_error d, some e)
      | .ok applied =>
          let d1 := if applied then { d with content := some text, status := "ready" } else d
          match c.create_embeddings with
          | .error e => (update_status_error d1, some e)
          | .ok _ =>
              match c.get_by_id with
              | .error e => (update_status_error d1, some e)
              | .ok none => (d1, none)
              | .ok (some _) =>
                  match c.index_in_search with
                  | .error e => (update_status_error d1, some e)
                  | .ok _ => (d1, none)

/-- HTTP outcome of the upload endpoint's tail. -/
inductive UploadOutcome where
  | created (message docStatus : String)
  | httpError (code : Nat) (detail : String)
deriving DecidableEq, Repr

/-- The tail of `upload_document` (lines 102–118) after the document record is
created: await the processing run; a re-raised exception falls into the broad
handler and becomes HTTP 500 instead of the `"processing"` success response. -/
def upload_document_process_phase (c : PipelineCalls) (d : DocRecord) :
    DocRecord × UploadOutcome :=
  match process_document_async c d with
  | (d2, none) => (d2, .created "Document uploaded successfully" "processing")
  | (d2, some _) => (d2, .httpError 500 "Failed to upload document")

/-- HTTP outcome of the reprocess endpoint. -/
inductive ReprocessOutcome where
  | ok (doc : DocRecord)
  | httpError (code : Nat) (detail : String)
deriving DecidableEq, Repr

/-- The tail of `reprocess_document` (lines 263–296) for a found document:
set status to `processing`, run the pipeline, return the updated document; a
re-raised exception becomes HTTP 500. -/
def reprocess_document (c : PipelineCalls) (d : DocRecord) : DocRecord × ReprocessOutcome :=
  let d0 : DocRecord := { d with status := "processing" }
  match process_document_async c d0 with
  | (d2, none) => (d2, .ok d2)
  | (d2, some _) => (d2, .httpError 500 "Failed to reprocess document")

def c3_calls : PipelineCalls :=
  { extract_text := .error { msg := "analysis backend crashed" }
    update_ready := .ok true
    create_embeddings := .ok none
    get_by_id := .ok none
    index_in_search := .ok false }

def c3_doc : DocRecord := { status := "processing", content := none }

/-- Counterexample for C3: on an unhandled extraction error the pipeline sets
the status to `error` but then re-raises (`raise e`), and the enclosing upload
operation — which awaits the pipeline inline — converts it into an HTTP 500
response instead of the already-successful "processing" response; the failure
is therefore NOT recorded as document state only. -/
theorem process_document_async_cex :
    (process_document_async c3_calls c3_doc).2 = some { msg := "analysis backend crashed" }
    ∧ (process_document_async c3_calls c3_doc).1.status = "error"
    ∧ upload_document_process_phase c3_calls c3_doc
        = ({ status := "error", content := none },
           .httpError 500 "Failed to upload document") := by
  decide

/-- C3 (amended): when any step of the pipeline fails with an unhandled error,
the document's status is forced to `error` AND the error IS re-raised to the
caller: the enclosing upload endpoint answers HTTP 500 "Failed to upload
document" and the reprocess endpoint answers HTTP 500 "Failed to reprocess
document", instead of their success responses. -/
theorem process_document_async_error_propagates (c : PipelineCalls) (d : DocRecord)
    (e : PyExc) (h : (process_document_async c d).2 = some e) :
    (process_document_async c d).1.status = "error"
    ∧ upload_document_process_phase c d
        = ((process_document_async c d).1, .httpError 500 "Failed to upload document")
    ∧ (reprocess_document c d).2
        = .httpError 500 "Failed to reprocess document" := by
  rcases c with ⟨(_ | (_ | _)), (_ | _), (_ | _), (_ | (_ | _)), (_ | _)⟩ <;>
    simp_all [process_document_async, upload_document_process_phase,
      reprocess_document, update_status_error]

/-- Witness for C3's amended theorem at the concrete failing run. -/
theorem process_document_async_error_propagates_witness :
    (process_document_async c3_calls c3_doc).1.status = "error"
    ∧ upload_document_process_phase c3_calls c3_doc
        = ((process_document_async c3_calls c3_doc).1,
           .httpError 500 "Failed to upload document")
    ∧ (reprocess_document c3_calls c3_doc).2
        = .httpError 500 "Failed to reprocess document" :=
  process_document_async_error_propagates c3_calls c3_doc
    { msg := "analysis backend crashed" } (by decide)

end Omnisearch
